import Mathlib

/-!
Shallow embedding of `src/app/components/JewelleryViewer.tsx`, the single
component of the 3d-modal-practice repository (a Three.js jewellery viewer).

Geometry is modelled over `ℚ` (exact arithmetic standing in for the
floating-point vectors of Three.js; the spec's tolerances become exact
equalities).  Scene-graph objects are identified by allocation ids (`Nat`),
so that JavaScript reference identity (`===`) becomes id equality.
-/

namespace JewelleryViewer

/-- A Three.js `Vector3`, with exact rational coordinates. -/
structure Vec3 where
  x : ℚ
  y : ℚ
  z : ℚ
deriving DecidableEq, Repr

def Vec3.add (a b : Vec3) : Vec3 := ⟨a.x + b.x, a.y + b.y, a.z + b.z⟩

def Vec3.sub (a b : Vec3) : Vec3 := ⟨a.x - b.x, a.y - b.y, a.z - b.z⟩

def Vec3.smul (k : ℚ) (a : Vec3) : Vec3 := ⟨k * a.x, k * a.y, k * a.z⟩

/-- A Three.js `Box3`: an axis-aligned bounding box. -/
structure Box3 where
  lo : Vec3
  hi : Vec3
deriving DecidableEq, Repr

/-- Three.js `Box3.getCenter`: `(min + max) * 0.5`. -/
def Box3.center (b : Box3) : Vec3 := Vec3.smul (1/2) (Vec3.add b.lo b.hi)

/-- Three.js `Box3.getSize`: `max - min`. -/
def Box3.size (b : Box3) : Vec3 := Vec3.sub b.hi b.lo

/-- The expression `Math.max(size.x, size.y, size.z)` as used on a box's size throughout the
component. -/
def Box3.maxDim (b : Box3) : ℚ := max b.size.x (max b.size.y b.size.z)

/-- The root transform of a loaded model: `model.position` and a uniform
`model.scale` (the component only ever sets all three scale components to the
same value, and a fresh `gltf.scene` carries a single scalar scale). -/
structure ModelTransform where
  position : Vec3
  scale : ℚ
deriving DecidableEq, Repr

/-- Three.js `Box3.setFromObject(model)` for a model root with transform `t` whose
descendant geometry occupies the box `local` in the root's local frame
(valid for nonnegative uniform scale): each local point `p` lies at world
point `position + scale • p`. -/
def worldBox (t : ModelTransform) (localBox : Box3) : Box3 :=
  ⟨Vec3.add t.position (Vec3.smul t.scale localBox.lo),
   Vec3.add t.position (Vec3.smul t.scale localBox.hi)⟩

/-- The auto-center-and-scale block of `loadModelFromURL` (lines 530–541):
reads the world bounding box once, then does
`model.position -= center` (componentwise) and
`model.scale.set(scaleFactor, scaleFactor, scaleFactor)` with
`scaleFactor = 2 / maxDim`. -/
def normalizeModelURL (t : ModelTransform) (localBox : Box3) : ModelTransform :=
  let box := worldBox t localBox
  let center := box.center
  let size := box.size
  let maxDim := max size.x (max size.y size.z)
  let scaleFactor := 2 / maxDim
  { position := Vec3.sub t.position center, scale := scaleFactor }

/-- The auto-center-and-scale block of `loadUserGLB` (lines 688–699):
`model.position.x += (model.position.x - center.x)` (and likewise for y, z),
then `model.scale.set(scaleFactor, scaleFactor, scaleFactor)` with
`scaleFactor = 2 / maxDim`. -/
def normalizeModelGLB (t : ModelTransform) (localBox : Box3) : ModelTransform :=
  let box := worldBox t localBox
  let center := box.center
  let size := box.size
  let maxDim := max size.x (max size.y size.z)
  let scaleFactor := 2 / maxDim
  { position := Vec3.add t.position (Vec3.sub t.position center), scale := scaleFactor }

/-- The identity transform a freshly parsed `gltf.scene` carries. -/
def freshTransform : ModelTransform := ⟨⟨0, 0, 0⟩, 1⟩

end JewelleryViewer

namespace JewelleryViewer

/-- Camera preset identifiers (`CameraPreset` in the source). -/
inductive CameraPresetT where
  | front
  | side
  | top
  | detail
  | iso
deriving DecidableEq, Repr

/-- The camera/orbit-controls state touched by the preset effect and by
`zoomToFit`: `camera.position`, `controls.target`, `controls.minDistance`,
plus the recorded `cameraPreset` React state. -/
structure CameraComponentState where
  cameraPos : Vec3
  target : Vec3
  minDistance : ℚ
  preset : CameraPresetT
deriving DecidableEq, Repr

/-- The camera-preset effect (lines 320–357): recomputes the model's bounding
box, then positions the camera and orbit target according to the recorded
preset; the `detail` case additionally tightens `controls.minDistance`. -/
def applyCameraPresetEffect (box : Box3) (st : CameraComponentState) :
    CameraComponentState :=
  let center := box.center
  let size := box.size
  let maxDim := max size.x (max size.y size.z)
  match st.preset with
  | .front =>
      { st with cameraPos := ⟨center.x, center.y, center.z + maxDim * (3/2)⟩
                target := center }
  | .side =>
      { st with cameraPos := ⟨center.x + maxDim * (3/2), center.y, center.z⟩
                target := center }
  | .top =>
      { st with cameraPos := ⟨center.x, center.y + maxDim * (3/2), center.z⟩
                target := center }
  | .detail =>
      { st with cameraPos := ⟨center.x + maxDim * (4/5), center.y + maxDim * (1/2),
                              center.z + maxDim * (4/5)⟩
                target := center
                minDistance := maxDim * (3/10) }
  | .iso =>
      { st with cameraPos := ⟨center.x + maxDim, center.y + maxDim * (7/10),
                              center.z + maxDim⟩
                target := center }

/-- Function `zoomToFit` (lines 754–769): recomputes the model's bounding box, copies
its center into `controls.target` and places the camera at
`(center.x, center.y, center.z + maxDim * 1.5)`; it never writes the
`cameraPreset` state. -/
def zoomToFitOp (box : Box3) (st : CameraComponentState) : CameraComponentState :=
  let center := box.center
  let size := box.size
  let maxDim := max size.x (max size.y size.z)
  { st with target := center
            cameraPos := ⟨center.x, center.y, center.z + maxDim * (3/2)⟩ }

/-- A model object alive in the viewer: its allocation id and the
`envMap` slot of each standard/physical material in its subtree. -/
structure SceneModel where
  id : Nat
  mats : List (Option Nat)
deriving DecidableEq, Repr

/-- The mutable refs and React state of the component that the model-manager
operations touch: an allocation counter (object identity), the store of
alive model objects, the ids attached to the scene, `currentModelRef`,
`defaultRingRef`, the `loading` flag, `envMapRef` and `scene.environment`
(textures are also identified by ids). -/
structure ViewerState where
  nextId : Nat
  objects : List SceneModel
  attached : List Nat
  currentModel : Option Nat
  defaultRing : Option Nat
  loading : Bool
  envMapRef : Option Nat
  environment : Option Nat
deriving DecidableEq, Repr

/-- Three.js `scene.add(obj)`: Three.js re-parents, so an already attached id is moved,
never duplicated. -/
def sceneAttach (attached : List Nat) (i : Nat) : List Nat :=
  attached.filter (· ≠ i) ++ [i]

/-- Three.js `scene.remove(obj)`. -/
def sceneDetach (attached : List Nat) (i : Nat) : List Nat :=
  attached.filter (· ≠ i)

/-- The state right after the mount effect set up the scene, before any
environment or model load resolved: `loading` starts `true`, every ref null. -/
def initialViewerState : ViewerState :=
  ⟨0, [], [], none, none, true, none, none⟩

/-- Function `createDefaultRing` (lines 405–474): builds the torus mesh with one
standard material plus the diamond child with one physical material (each
material's `envMap` is set from `envMapRef` when that ref is non-null, else
left null), adds the ring to the scene and stores it in both
`currentModelRef` and `defaultRingRef`. -/
def createDefaultRing (s : ViewerState) : ViewerState :=
  let ring : SceneModel := ⟨s.nextId, [s.envMapRef, s.envMapRef]⟩
  { s with nextId := s.nextId + 1
           objects := s.objects ++ [ring]
           attached := sceneAttach s.attached ring.id
           currentModel := some ring.id
           defaultRing := some ring.id }

/-- The traverse in both load callbacks: every standard/physical material of
the freshly parsed model gets `envMap := envMapRef.current` when that ref is
non-null, and keeps its own otherwise. -/
def loadedMats (envRef : Option Nat) (mats : List (Option Nat)) :
    List (Option Nat) :=
  mats.map (fun e => match envRef with | some t => some t | none => e)

/-- The success callback of `loadModelFromURL` (lines 520–582): removes the
old model only when `currentModelRef.current !== defaultRingRef.current`,
then normalizes, traverses and attaches the parsed model (its materials given
by `mats`), stores it in `currentModelRef` and clears `loading`. -/
def loadModelFromURLSuccess (mats : List (Option Nat)) (s : ViewerState) :
    ViewerState :=
  let s1 :=
    match s.currentModel with
    | some m =>
        if s.defaultRing ≠ some m then { s with attached := sceneDetach s.attached m }
        else s
    | none => s
  let model : SceneModel := ⟨s1.nextId, loadedMats s1.envMapRef mats⟩
  { s1 with nextId := s1.nextId + 1
            objects := s1.objects ++ [model]
            attached := sceneAttach s1.attached model.id
            currentModel := some model.id
            loading := false }

/-- The success callback of `loadUserGLB` (lines 678–742): removes the old
model unconditionally, then attaches the parsed model, stores it in
`currentModelRef` and clears `loading`. -/
def loadUserGLBSuccess (mats : List (Option Nat)) (s : ViewerState) :
    ViewerState :=
  let s1 :=
    match s.currentModel with
    | some m => { s with attached := sceneDetach s.attached m }
    | none => s
  let model : SceneModel := ⟨s1.nextId, loadedMats s1.envMapRef mats⟩
  { s1 with nextId := s1.nextId + 1
            objects := s1.objects ++ [model]
            attached := sceneAttach s1.attached model.id
            currentModel := some model.id
            loading := false }

/-- Function `resetScene` (lines 654–664): when the current model is non-null and is
not the default ring, remove it from the scene; then, when `defaultRingRef`
is non-null, re-add the retained ring and make it current. -/
def resetScene (s : ViewerState) : ViewerState :=
  match s.currentModel with
  | some m =>
      if s.defaultRing ≠ some m then
        let s1 := { s with attached := sceneDetach s.attached m }
        match s1.defaultRing with
        | some r => { s1 with attached := sceneAttach s1.attached r
                              currentModel := some r }
        | none => s1
      else s
  | none => s

/-- Shared tail of both `loadEnvironment` callbacks (lines 387–390 and
395–398): when `currentModelRef.current` is null, build the default ring and
clear the `loading` flag. -/
def loadEnvTail (s : ViewerState) : ViewerState :=
  if s.currentModel = none then
    let s1 := createDefaultRing s
    { s1 with loading := false }
  else s

/-- One step of the `scene.traverse` in the environment-load success
callback: a model attached to the scene gets every standard/physical
material's `envMap` rebound to the new texture; a detached one is not
visited. -/
def envRebindMats (tex : Nat) (attached : List Nat) (o : SceneModel) :
    SceneModel :=
  if o.id ∈ attached then { o with mats := o.mats.map (fun _ => some tex) }
  else o

/-- The success callback of `loadEnvironment` (lines 370–391): installs the
decoded texture as `scene.environment` and in `envMapRef`, traverses the
scene rebinding every attached standard/physical material's `envMap` to it,
then runs the shared tail. -/
def loadEnvironmentSuccess (tex : Nat) (s : ViewerState) : ViewerState :=
  let s1 :=
    { s with environment := some tex
             envMapRef := some tex
             objects := s.objects.map (envRebindMats tex s.attached) }
  loadEnvTail s1

/-- The error callback of `loadEnvironment` (lines 393–399): logs the error
and runs the shared tail; no environment is installed. -/
def loadEnvironmentFailure (s : ViewerState) : ViewerState :=
  loadEnvTail s

/-- One entry of `CONFIG.materials`, and the settings object built inside
`setMaterial`: `{ color, metalness, roughness, envMapIntensity }`. -/
structure MaterialSettings where
  color : Nat
  metalness : ℚ
  roughness : ℚ
  envMapIntensity : ℚ
deriving DecidableEq, Repr

/-- Entry `CONFIG.materials.gold` (line 14). -/
def CONFIG_materials_gold : MaterialSettings := ⟨0xFFD700, 9/10, 3/10, 8/10⟩

/-- Entry `CONFIG.materials.rosegold` (line 15). -/
def CONFIG_materials_rosegold : MaterialSettings := ⟨0xB76E79, 9/10, 3/10, 8/10⟩

/-- Entry `CONFIG.materials.platinum` (line 16). -/
def CONFIG_materials_platinum : MaterialSettings := ⟨0xffffff, 9/10, 3/10, 7/10⟩

/-- The `MaterialType` union of the source. -/
inductive MaterialTypeT where
  | gold
  | rosegold
  | platinum
  | custom
deriving DecidableEq, Repr

/-- Lookup `CONFIG.materials[type]`: `custom` has no entry. -/
def CONFIG_materials : MaterialTypeT → Option MaterialSettings
  | .gold => some CONFIG_materials_gold
  | .rosegold => some CONFIG_materials_rosegold
  | .platinum => some CONFIG_materials_platinum
  | .custom => none

/-- The settings computation at the head of `setMaterial` (lines 602–608):
for `custom` with a color argument, the parsed hex plus fixed
metalness/roughness/intensity; for `custom` without one, the fallback color
`0xFFD700`; otherwise the `CONFIG.materials` entry.  `colorArg` is the
already parsed hex value of the optional color string. -/
def setMaterialSettings (t : MaterialTypeT) (colorArg : Option Nat) :
    Option MaterialSettings :=
  match t with
  | .custom =>
      let colorHex := colorArg.getD 0xFFD700
      some ⟨colorHex, 9/10, 3/10, 8/10⟩
  | _ => CONFIG_materials t

/-- A `MeshStandardMaterial` / `MeshPhysicalMaterial` as far as `setMaterial`
and the environment loader touch it. -/
structure MeshMaterial where
  name : String
  color : Nat
  metalness : ℚ
  roughness : ℚ
  envMapIntensity : ℚ
  envMap : Option Nat
  needsUpdate : Bool
deriving DecidableEq, Repr

def startsWithChars (sub l : List Char) : Bool :=
  match sub, l with
  | [], _ => true
  | _ :: _, [] => false
  | a :: su, b :: lt => a == b && startsWithChars su lt

/-- Whether `sub` occurs as a contiguous substring, as in
JavaScript's `String.prototype.includes`. -/
def listHasSub (sub l : List Char) : Bool :=
  match l with
  | [] => sub.isEmpty
  | _ :: t => startsWithChars sub l || listHasSub sub t

def toLowerStr (s : String) : String := ⟨s.data.map Char.toLower⟩

def strHasSub (s sub : String) : Bool := listHasSub sub.data s.data

/-- The metal/gem heuristic of `setMaterial`'s GLB branch (lines 628–632):
`material.name.toLowerCase().includes('metal') || ...includes('gold') ||
material.metalness > 0.5`. -/
def isMetalLike (m : MeshMaterial) : Bool :=
  strHasSub (toLowerStr m.name) "metal" ||
  strHasSub (toLowerStr m.name) "gold" ||
  decide ((1 : ℚ)/2 < m.metalness)

/-- The per-material body of `setMaterial`'s GLB traverse (lines 626–648):
metal-like materials get color/metalness/roughness and (`'envMapIntensity' in
material` always holds for standard/physical materials) the configured
environment intensity; other materials get only color/metalness/roughness;
both then rebind `envMap` from `envMapRef` when that ref is non-null and are
marked for update. -/
def applyMaterialExternal (st : MaterialSettings) (envRef : Option Nat)
    (m : MeshMaterial) : MeshMaterial :=
  let m1 :=
    if isMetalLike m then
      { m with color := st.color, metalness := st.metalness,
               roughness := st.roughness, envMapIntensity := st.envMapIntensity }
    else
      { m with color := st.color, metalness := st.metalness,
               roughness := st.roughness }
  match envRef with
  | some t => { m1 with envMap := some t, needsUpdate := true }
  | none => m1

/-- The procedural branch of `setMaterial` (lines 614–621): the ring's single
standard material gets color, metalness, roughness and envMapIntensity from
the settings. -/
def applyMaterialProcedural (st : MaterialSettings) (m : MeshMaterial) :
    MeshMaterial :=
  { m with color := st.color, metalness := st.metalness,
           roughness := st.roughness, envMapIntensity := st.envMapIntensity }

def isHexDigitChar (c : Char) : Bool :=
  (('0' ≤ c) && (c ≤ '9')) || (('A' ≤ c) && (c ≤ 'F')) || (('a' ≤ c) && (c ≤ 'f'))

/-- The regular expression `/^#[0-9A-F]{6}$/i` of the custom-color text input
(line 917): a leading `#` followed by exactly six case-insensitive hex
digits. -/
def matchesHexColor (s : String) : Bool :=
  match s.data with
  | '#' :: rest => rest.length == 6 && rest.all isHexDigitChar
  | _ => false

def hexDigitVal (c : Char) : Nat :=
  if ('0' ≤ c) && (c ≤ '9') then c.toNat - '0'.toNat
  else if ('A' ≤ c) && (c ≤ 'F') then c.toNat - 'A'.toNat + 10
  else if ('a' ≤ c) && (c ≤ 'f') then c.toNat - 'a'.toNat + 10
  else 0

/-- JavaScript `parseInt(str, 16)` on an all-hex-digit string. -/
def parseHexNat (s : String) : Nat :=
  s.data.foldl (fun acc c => acc * 16 + hexDigitVal c) 0

/-- JavaScript `color.replace('#', '')`. -/
def stripHash (s : String) : String := ⟨s.data.filter (· ≠ '#')⟩

/-- The `onChange` handler of the custom-color text input (lines 916–921):
only a value matching the hex pattern is stored in `customColor` and passed
to `setMaterial('custom', value)`; otherwise nothing happens.  Returns the
resulting `customColor` state and the hex value applied, if any. -/
def customColorInputChange (prevColor : String) (value : String) :
    String × Option Nat :=
  if matchesHexColor value then (value, some (parseHexNat (stripHash value)))
  else (prevColor, none)

/-- Side effects of `handleKeyPress` that live outside the React state. -/
inductive KeySideAction where
  | toggleFullscreenCall
  | screenshotCall
deriving DecidableEq, Repr

/-- The React state written by the keyboard-shortcut handler. -/
structure ShortcutState where
  autoRotate : Bool
  showStats : Bool
  cameraPreset : CameraPresetT
deriving DecidableEq, Repr

/-- Function `handleKeyPress` (lines 281–313): returns immediately when the event
target is an `HTMLInputElement`; otherwise dispatches on
`e.key.toLowerCase()`. -/
def handleKeyPress (targetIsTextInput : Bool) (key : String)
    (st : ShortcutState) : ShortcutState × List KeySideAction :=
  if targetIsTextInput then (st, [])
  else
    match toLowerStr key with
    | "r" => ({ st with autoRotate := !st.autoRotate }, [])
    | "f" => (st, [.toggleFullscreenCall])
    | "s" => ({ st with showStats := !st.showStats }, [])
    | "c" => (st, [.screenshotCall])
    | "1" => ({ st with cameraPreset := .front }, [])
    | "2" => ({ st with cameraPreset := .side }, [])
    | "3" => ({ st with cameraPreset := .top }, [])
    | "4" => ({ st with cameraPreset := .detail }, [])
    | "5" => ({ st with cameraPreset := .iso }, [])
    | _ => (st, [])

/-- What `captureScreenshot` does to the renderer: size changes, issued
draws, and triggered downloads. -/
inductive RenderAction where
  | setSize (w h : ℚ)
  | renderFrame (w h : ℚ)
  | downloadFile (name : String)
deriving DecidableEq, Repr

/-- The renderer's output size (`renderer.getSize`). -/
structure RendererState where
  width : ℚ
  height : ℚ
deriving DecidableEq, Repr

def RenderAction.isDownload : RenderAction → Bool
  | .downloadFile _ => true
  | _ => false

/-- Function `captureScreenshot` (lines 237–270) as the sequence of renderer actions
it performs: read the original size, double it, render once at the doubled
size, then in the `toBlob` callback download a timestamped file when a blob
was produced (none otherwise), and unconditionally restore the original
size. `blobProduced` is whether `toBlob` delivered a non-null blob, `now`
is `Date.now()`. -/
def captureScreenshotTrace (r : RendererState) (blobProduced : Bool)
    (now : Nat) : List RenderAction :=
  let originalSize := r
  let scale : ℚ := 2
  [RenderAction.setSize (originalSize.width * scale) (originalSize.height * scale),
   RenderAction.renderFrame (originalSize.width * scale) (originalSize.height * scale)] ++
  (if blobProduced then
    [RenderAction.downloadFile ("jewellery-" ++ toString now ++ ".png")]
   else []) ++
  [RenderAction.setSize originalSize.width originalSize.height]

/-- Replay a renderer-action trace against a renderer to obtain its final
output size. -/
def runRenderActions (r : RendererState) (acts : List RenderAction) :
    RendererState :=
  acts.foldl (fun st a =>
    match a with
    | .setSize w h => ⟨w, h⟩
    | _ => st) r

/-- A local bounding box `[0,4]³` exhibiting the normalization slip: its
center `(2,2,2)` is away from the origin and its max dimension is 4. -/
def offCenterTestBox : Box3 := ⟨⟨0, 0, 0⟩, ⟨4, 4, 4⟩⟩

/-- A material named like a gem part, with low metalness and an environment
intensity different from every configured one. -/
def gemTestMaterial : MeshMaterial := ⟨"gem", 0xAAAAAA, 1/10, 1/2, 1/5, none, false⟩

/-- The same fields as `gemTestMaterial` but named so the heuristic
classifies it as metal-like. -/
def metalTestMaterial : MeshMaterial := ⟨"metal", 0xAAAAAA, 1/10, 1/2, 1/5, none, false⟩

/-- The procedural ring's standard material as `createDefaultRing` builds it
(gold settings, no environment yet). -/
def sampleRingMaterial : MeshMaterial := ⟨"", 0xFFD700, 9/10, 3/10, 8/10, none, false⟩

/-- The state after the default ring was created and an external model was
then loaded from a URL: ring id 0 retained in `defaultRingRef`, model id 1
current. -/
def resetWitnessState : ViewerState :=
  loadModelFromURLSuccess [] (createDefaultRing initialViewerState)

end JewelleryViewer

namespace JewelleryViewer

/-- Claim C1: the spec says every successfully parsed external model ends up
with its bounding-box center at the origin and its largest dimension equal to
2.  The code recenters first and only then sets the root scale, so scaling
about the (already moved) root origin drags the center away again: for a
model whose subtree occupies `[0,4]³` at the identity transform, both the
URL path and the drag-and-drop path leave the bounding-box center at
`(-1,-1,-1)` — not the origin — while the largest dimension does become 2. -/
theorem loadModel_normalization_offcenter :
    (worldBox (normalizeModelURL freshTransform offCenterTestBox) offCenterTestBox).center = ⟨-1, -1, -1⟩ ∧
    (worldBox (normalizeModelURL freshTransform offCenterTestBox) offCenterTestBox).maxDim = 2 ∧
    (worldBox (normalizeModelGLB freshTransform offCenterTestBox) offCenterTestBox).center = ⟨-1, -1, -1⟩ ∧
    (worldBox (normalizeModelGLB freshTransform offCenterTestBox) offCenterTestBox).maxDim = 2 := by
  refine ⟨?_, ?_, ?_, ?_⟩ <;>
    norm_num [normalizeModelURL, normalizeModelGLB, worldBox, freshTransform, offCenterTestBox,
      Box3.center, Box3.size, Box3.maxDim, Vec3.add, Vec3.sub, Vec3.smul]

/-- Claim C2: the spec's invariant says at most one active model subtree is
attached at a time.  After the default ring (id 0) is created and a URL model
load succeeds, the success callback skips the removal because the current
model is the default ring, so both the ring and the new model (id 1) are
attached to the scene simultaneously, violating the invariant (the ring is
retained in `defaultRingRef`, but on-scene rather than off-scene). -/
theorem urlLoad_leaves_ring_attached :
    (createDefaultRing initialViewerState).attached = [0] ∧
    resetWitnessState.attached = [0, 1] ∧
    resetWitnessState.defaultRing = some 0 ∧
    resetWitnessState.currentModel = some 1 := by decide

/-- Claim C3, counterexample: the claim says `applyMaterial` performs
identical field updates regardless of the metal-like classification.  Two
materials identical in every field except the name (one classified metal-like,
one not) diverge after application: the metal-like one gets the configured
`envMapIntensity` (4/5 for gold) while the other keeps its previous value
(1/5), so the updates are not identical. -/
theorem applyMaterial_branch_divergence :
    metalTestMaterial.envMapIntensity = gemTestMaterial.envMapIntensity ∧
    metalTestMaterial.metalness = gemTestMaterial.metalness ∧
    isMetalLike gemTestMaterial = false ∧
    isMetalLike metalTestMaterial = true ∧
    (applyMaterialExternal CONFIG_materials_gold none gemTestMaterial).envMapIntensity = 1/5 ∧
    (applyMaterialExternal CONFIG_materials_gold none metalTestMaterial).envMapIntensity = 4/5 ∧
    (applyMaterialExternal CONFIG_materials_gold none gemTestMaterial).envMapIntensity ≠
      (applyMaterialExternal CONFIG_materials_gold none metalTestMaterial).envMapIntensity := by
  have hgem : isMetalLike gemTestMaterial = false := by
    have h1 : strHasSub (toLowerStr "gem") "metal" = false := rfl
    have h2 : strHasSub (toLowerStr "gem") "gold" = false := rfl
    simp [isMetalLike, gemTestMaterial, h1, h2]
    norm_num
  have hmetal : isMetalLike metalTestMaterial = true := by
    have h1 : strHasSub (toLowerStr "metal") "metal" = true := rfl
    simp [isMetalLike, metalTestMaterial, h1]
  refine ⟨rfl, rfl, hgem, hmetal, ?_, ?_, ?_⟩ <;>
    · simp only [applyMaterialExternal, hgem, hmetal, Bool.false_eq_true, if_false, if_true]
      norm_num [gemTestMaterial, metalTestMaterial, CONFIG_materials_gold]

/-- Claim C3, amended: on every traversed standard/physical material, both
branches of `applyMaterial` write the same color, metalness and roughness and
both rebind the environment map and mark the material for update; only the
`envMapIntensity` update depends on the metal-like classification (matched
materials get the configured value, unmatched keep their own). -/
theorem applyMaterial_uniform_core_fields (st : MaterialSettings)
    (envRef : Option Nat) (m : MeshMaterial) :
    (applyMaterialExternal st envRef m).color = st.color ∧
    (applyMaterialExternal st envRef m).metalness = st.metalness ∧
    (applyMaterialExternal st envRef m).roughness = st.roughness ∧
    (applyMaterialExternal st envRef m).envMapIntensity =
      (if isMetalLike m then st.envMapIntensity else m.envMapIntensity) ∧
    (applyMaterialExternal st envRef m).envMap =
      (if envRef.isSome then envRef else m.envMap) ∧
    (applyMaterialExternal st envRef m).needsUpdate =
      (envRef.isSome || m.needsUpdate) := by
  cases envRef <;> cases h : isMetalLike m <;>
    simp [applyMaterialExternal, h]

/-- Claim C4: applying any supported metal selection (gold, rosegold,
platinum — every type other than custom) while the procedural ring is active
sets the ring's single standard material to exactly the configured
color/metalness/roughness/environment-intensity tuple of that metal. -/
theorem setMaterial_procedural_exact_config (t : MaterialTypeT)
    (h : t ≠ MaterialTypeT.custom) (c : Option Nat) (m : MeshMaterial) :
    ∃ cfg, CONFIG_materials t = some cfg ∧ setMaterialSettings t c = some cfg ∧
      (applyMaterialProcedural cfg m).color = cfg.color ∧
      (applyMaterialProcedural cfg m).metalness = cfg.metalness ∧
      (applyMaterialProcedural cfg m).roughness = cfg.roughness ∧
      (applyMaterialProcedural cfg m).envMapIntensity = cfg.envMapIntensity := by
  cases t with
  | custom => exact absurd rfl h
  | gold => exact ⟨CONFIG_materials_gold, rfl, rfl, rfl, rfl, rfl, rfl⟩
  | rosegold => exact ⟨CONFIG_materials_rosegold, rfl, rfl, rfl, rfl, rfl, rfl⟩
  | platinum => exact ⟨CONFIG_materials_platinum, rfl, rfl, rfl, rfl, rfl, rfl⟩

/-- Witness for claim C4's theorem at the gold selection and the ring's own
material. -/
theorem setMaterial_procedural_exact_config_witness :
    MaterialTypeT.gold ≠ MaterialTypeT.custom ∧
    (∃ cfg, CONFIG_materials .gold = some cfg ∧ setMaterialSettings .gold none = some cfg ∧
      (applyMaterialProcedural cfg sampleRingMaterial).color = cfg.color ∧
      (applyMaterialProcedural cfg sampleRingMaterial).metalness = cfg.metalness ∧
      (applyMaterialProcedural cfg sampleRingMaterial).roughness = cfg.roughness ∧
      (applyMaterialProcedural cfg sampleRingMaterial).envMapIntensity = cfg.envMapIntensity) :=
  ⟨by decide, setMaterial_procedural_exact_config .gold (by decide) none sampleRingMaterial⟩

/-- Claim C5: in any state where the retained default ring `r` exists and the
current model `m` is some other (externally loaded) object, `resetScene`
detaches `m`, reattaches exactly the retained ring id `r` and makes it
current, allocating nothing and constructing no new object (the object store
and the allocation counter are untouched), so the restored model is the very
object reference created before the external load. -/
theorem resetScene_restores_ring (s : ViewerState) (r m : Nat)
    (hr : s.defaultRing = some r) (hm : s.currentModel = some m) (hne : m ≠ r) :
    (resetScene s).currentModel = some r ∧
    r ∈ (resetScene s).attached ∧
    m ∉ (resetScene s).attached ∧
    (resetScene s).objects = s.objects ∧
    (resetScene s).nextId = s.nextId ∧
    (resetScene s).defaultRing = some r := by
  have hrm : r ≠ m := Ne.symm hne
  simp [resetScene, hm, hr, hrm, sceneAttach, sceneDetach, List.mem_filter, hne]

/-- Witness for claim C5's theorem: ring id 0 created, external model id 1
loaded from a URL, then reset restores id 0. -/
theorem resetScene_restores_ring_witness :
    resetWitnessState.defaultRing = some 0 ∧
    resetWitnessState.currentModel = some 1 ∧
    ((resetScene resetWitnessState).currentModel = some 0 ∧
      0 ∈ (resetScene resetWitnessState).attached ∧
      1 ∉ (resetScene resetWitnessState).attached ∧
      (resetScene resetWitnessState).objects = resetWitnessState.objects ∧
      (resetScene resetWitnessState).nextId = resetWitnessState.nextId ∧
      (resetScene resetWitnessState).defaultRing = some 0) :=
  ⟨by decide, by decide,
    resetScene_restores_ring resetWitnessState 0 1 (by decide) (by decide) (by decide)⟩

theorem envRebindMats_sound (tex : Nat) (attached : List Nat) (o : SceneModel)
    (h : o.id ∈ attached) : ∀ e ∈ (envRebindMats tex attached o).mats, e = some tex := by
  intro e he
  simp [envRebindMats, h] at he
  exact he.2

theorem envRebindMats_id_eq (tex : Nat) (attached : List Nat) (o : SceneModel) :
    (envRebindMats tex attached o).id = o.id := by
  unfold envRebindMats
  split <;> rfl

/-- Claim C6: for an environment-preset load over a state whose alive object
ids respect the allocation counter, the success outcome installs the texture
as the scene environment and leaves every attached material bound to it, the
failure outcome installs nothing, and in both outcomes, if no model has been
created yet, the default ring is constructed (allocated, attached, stored in
both refs) and the loading flag is cleared. -/
theorem loadEnvironment_creates_ring_both_outcomes (tex : Nat) (s : ViewerState)
    (hids : ∀ o ∈ s.objects, o.id < s.nextId) :
    (loadEnvironmentSuccess tex s).environment = some tex ∧
    (∀ o ∈ (loadEnvironmentSuccess tex s).objects,
        o.id ∈ (loadEnvironmentSuccess tex s).attached → ∀ e ∈ o.mats, e = some tex) ∧
    (loadEnvironmentFailure s).environment = s.environment ∧
    (s.currentModel = none →
      (loadEnvironmentSuccess tex s).currentModel = some s.nextId ∧
      (loadEnvironmentSuccess tex s).defaultRing = some s.nextId ∧
      s.nextId ∈ (loadEnvironmentSuccess tex s).attached ∧
      (loadEnvironmentSuccess tex s).loading = false) ∧
    (s.currentModel = none →
      (loadEnvironmentFailure s).currentModel = some s.nextId ∧
      (loadEnvironmentFailure s).defaultRing = some s.nextId ∧
      s.nextId ∈ (loadEnvironmentFailure s).attached ∧
      (loadEnvironmentFailure s).loading = false) := by
  by_cases h : s.currentModel = none
  · refine ⟨?_, ?_, ?_, ?_, ?_⟩
    · simp [loadEnvironmentSuccess, loadEnvTail, h, createDefaultRing]
    · intro o ho hoa e he
      simp only [loadEnvironmentSuccess, loadEnvTail, h, if_pos, createDefaultRing] at ho hoa
      rcases List.mem_append.mp ho with h1 | h2
      · rcases List.mem_map.mp h1 with ⟨o0, ho0, rfl⟩
        by_cases hin : o0.id ∈ s.attached
        · exact envRebindMats_sound tex s.attached o0 hin e he
        · exfalso
          rw [envRebindMats_id_eq] at hoa
          simp only [sceneAttach] at hoa
          rcases List.mem_append.mp hoa with hf | hx
          · exact hin (List.mem_of_mem_filter hf)
          · simp at hx
            exact absurd hx (Nat.ne_of_lt (hids o0 ho0))
      · simp at h2
        subst h2
        simp at he
        rcases he with rfl | rfl
        rfl
    · simp [loadEnvironmentFailure, loadEnvTail, h, createDefaultRing]
    · intro _
      refine ⟨?_, ?_, ?_, ?_⟩ <;>
        simp [loadEnvironmentSuccess, loadEnvTail, h, createDefaultRing, sceneAttach]
    · intro _
      refine ⟨?_, ?_, ?_, ?_⟩ <;>
        simp [loadEnvironmentFailure, loadEnvTail, h, createDefaultRing, sceneAttach]
  · refine ⟨?_, ?_, ?_, ?_, ?_⟩
    · simp [loadEnvironmentSuccess, loadEnvTail, h]
    · intro o ho hoa e he
      simp only [loadEnvironmentSuccess, loadEnvTail, h, if_neg] at ho hoa
      rcases List.mem_map.mp ho with ⟨o0, ho0, rfl⟩
      by_cases hin : o0.id ∈ s.attached
      · exact envRebindMats_sound tex s.attached o0 hin e he
      · exfalso
        rw [envRebindMats_id_eq] at hoa
        exact hin hoa
    · simp [loadEnvironmentFailure, loadEnvTail, h]
    · intro hc
      exact absurd hc h
    · intro hc
      exact absurd hc h

/-- Witness for claim C6's theorem at the freshly mounted state (no model,
nothing attached) and texture id 7. -/
theorem loadEnvironment_creates_ring_both_outcomes_witness :
    (∀ o ∈ initialViewerState.objects, o.id < initialViewerState.nextId) ∧
    ((loadEnvironmentSuccess 7 initialViewerState).environment = some 7 ∧
      (∀ o ∈ (loadEnvironmentSuccess 7 initialViewerState).objects,
          o.id ∈ (loadEnvironmentSuccess 7 initialViewerState).attached →
          ∀ e ∈ o.mats, e = some 7) ∧
      (loadEnvironmentFailure initialViewerState).environment = initialViewerState.environment ∧
      (initialViewerState.currentModel = none →
        (loadEnvironmentSuccess 7 initialViewerState).currentModel = some initialViewerState.nextId ∧
        (loadEnvironmentSuccess 7 initialViewerState).defaultRing = some initialViewerState.nextId ∧
        initialViewerState.nextId ∈ (loadEnvironmentSuccess 7 initialViewerState).attached ∧
        (loadEnvironmentSuccess 7 initialViewerState).loading = false) ∧
      (initialViewerState.currentModel = none →
        (loadEnvironmentFailure initialViewerState).currentModel = some initialViewerState.nextId ∧
        (loadEnvironmentFailure initialViewerState).defaultRing = some initialViewerState.nextId ∧
        initialViewerState.nextId ∈ (loadEnvironmentFailure initialViewerState).attached ∧
        (loadEnvironmentFailure initialViewerState).loading = false)) :=
  ⟨by decide, loadEnvironment_creates_ring_both_outcomes 7 initialViewerState (by decide)⟩

/-- Claim C7: every screenshot capture issues its one render at exactly double
the renderer's current output size, and the trace always ends by restoring the
original size (so replaying it leaves the renderer at its pre-capture size),
in the blob and the no-blob outcome alike; a download of a timestamped
`jewellery-<now>.png` happens exactly when a blob was produced. -/
theorem captureScreenshot_restores_size (r : RendererState) (blobProduced : Bool) (now : Nat) :
    runRenderActions r (captureScreenshotTrace r blobProduced now) = r ∧
    RenderAction.renderFrame (r.width * 2) (r.height * 2) ∈
      captureScreenshotTrace r blobProduced now ∧
    (captureScreenshotTrace r blobProduced now).filter RenderAction.isDownload =
      (if blobProduced then
        [RenderAction.downloadFile ("jewellery-" ++ toString now ++ ".png")]
       else []) := by
  cases r with
  | mk w h =>
    cases blobProduced <;>
      simp [captureScreenshotTrace, runRenderActions, RenderAction.isDownload]

/-- Claim C8: the custom-color text input accepts `#1A2B3C` (storing it and
applying its parsed value 0x1A2B3C as the custom material color) and rejects
`1A2B3C` and `#1A2B3`, leaving any previous custom color unchanged and
applying nothing. -/
theorem customColor_validation (prev : String) :
    customColorInputChange prev "#1A2B3C" = ("#1A2B3C", some 0x1A2B3C) ∧
    customColorInputChange prev "1A2B3C" = (prev, none) ∧
    customColorInputChange prev "#1A2B3" = (prev, none) :=
  ⟨rfl, rfl, rfl⟩

/-- Claim C9: for every bounding box and camera state, the one-shot
`zoomToFit` computes exactly the camera position and orbit target that the
`front` preset computes for that box — `center + maxDim * 1.5` along +z,
target at the center — and it leaves the recorded camera-preset state
unchanged. -/
theorem zoomToFit_matches_front_preset (box : Box3) (st : CameraComponentState) :
    (zoomToFitOp box st).cameraPos =
      (applyCameraPresetEffect box { st with preset := .front }).cameraPos ∧
    (zoomToFitOp box st).target =
      (applyCameraPresetEffect box { st with preset := .front }).target ∧
    (zoomToFitOp box st).cameraPos =
      ⟨box.center.x, box.center.y, box.center.z + box.maxDim * (3/2)⟩ ∧
    (zoomToFitOp box st).target = box.center ∧
    (zoomToFitOp box st).preset = st.preset := by
  simp [zoomToFitOp, applyCameraPresetEffect, Box3.maxDim, Box3.center, Box3.size]

/-- Claim C10: when the keyboard event's target is a text input element, the
shortcut handler returns without effect for every key — no state field
(auto-rotate, stats visibility, camera preset) changes and no fullscreen
toggle or screenshot capture is triggered. -/
theorem handleKeyPress_ignores_text_input (key : String) (st : ShortcutState) :
    handleKeyPress true key st = (st, []) := rfl

end JewelleryViewer
